import Mathlib

/-!
Verification of the news-analyzer pipeline (src/app.py).

The analysis core of the application is shallowly embedded here:
* `perform_nlp_analysis` models the helper of the same name (app.py lines
  138-156): sentiment classification on the first 512 characters with the
  0.95 confidence threshold, and entity extraction over the full text.
* `process_news_data` models the aggregation loop (lines 158-174).
* `analyze_topic_handle` / `latest_news_handle` model the response
  processing of the two API endpoints (lines 186-202 and 212-228).

External black boxes (the Hugging Face sentiment pipeline, the spaCy NER
model, the network) are parameters: a classifier is a function
`String → Option SentimentResult` (`none` models a raised exception), the
NER model is an `Option (String → List (String × String))` (`none` models a
spaCy model that failed to load; the list holds `(ent.text, ent.label_)`
pairs), and the outcome of the outbound HTTP request is a `FetchResult`.
Confidence scores are modelled as rationals.
-/

/-- Result returned by the sentiment pipeline: `{label, score}`. -/
structure SentimentResult where
  label : String
  score : ℚ
  deriving DecidableEq, Repr

/-- A sentiment classifier: `none` models a call that raises. -/
abbrev Classifier := String → Option SentimentResult

/-- A named-entity recognizer: maps text to `(ent.text, ent.label_)` pairs. -/
abbrev NerModel := String → List (String × String)

/-- The entity dictionary, a key-ordered association list mirroring the
Python dict `{"PERSON": [...], "ORG": [...], "GPE": [...]}`. -/
abbrev EntityDict := List (String × List String)

/-- The initial dict `{"PERSON": [], "ORG": [], "GPE": []}` (app.py line 147). -/
def entitiesInit : EntityDict := [("PERSON", []), ("ORG", []), ("GPE", [])]

/-- Python `ent.label_ in entities`: key membership in the dict. -/
def dictHasKey (d : EntityDict) (k : String) : Bool :=
  d.any (fun p => p.1 = k)

/-- Python `entities[ent.label_].append(ent.text)`: append to one bucket. -/
def dictAppend (d : EntityDict) (k : String) (v : String) : EntityDict :=
  d.map (fun p => if p.1 = k then (p.1, p.2 ++ [v]) else p)

/-- One iteration of the `for ent in doc.ents` loop (app.py lines 150-152). -/
def entStep (d : EntityDict) (e : String × String) : EntityDict :=
  if dictHasKey d e.2 then dictAppend d e.2 e.1 else d

/-- The entity-collection part of `perform_nlp_analysis` (app.py lines
147-154): fold the recognized entities into the dict, then deduplicate each
bucket (`entities[key] = list(set(entities[key]))`, modelled with a
deterministic dedup since the claims only concern set semantics). -/
def buildEntities (ents : List (String × String)) : EntityDict :=
  ((ents.foldl entStep entitiesInit).map (fun p => (p.1, p.2.dedup)))

/-- The sentiment part of `perform_nlp_analysis` (app.py lines 140-145):
run the classifier on its input; on success, override the label to NEUTRAL
when the score is below 0.95; on failure, degrade to UNKNOWN / 0.0. -/
def computeSentiment (cl : Classifier) (input : String) : SentimentResult :=
  match cl input with
  | some r => if r.score < 95 / 100 then { r with label := "NEUTRAL" } else r
  | none => { label := "UNKNOWN", score := 0 }

/-- `perform_nlp_analysis` (app.py lines 138-156): sentiment over the first
512 characters (`text[:512]`), entities over the full text when the NER
model loaded, the fixed empty dict otherwise. -/
def perform_nlp_analysis (cl : Classifier) (oner : Option NerModel)
    (text : String) : SentimentResult × EntityDict :=
  (computeSentiment cl (text.take 512),
    match oner with
    | some f => buildEntities (f text)
    | none => entitiesInit)

/-- An input article record as consumed from the news API payload. -/
structure Article where
  title : Option String
  content : Option String
  description : Option String
  publishedAt : Option String
  deriving DecidableEq, Repr

/-- One annotated output article. -/
structure AnalyzedArticle where
  id : ℕ
  title : Option String
  content : String
  published_at : Option String
  sentiment : SentimentResult
  entities : EntityDict
  deriving DecidableEq, Repr

/-- Python truthiness-based `x or y` for strings: `""` is falsy. -/
def strOr (x y : String) : String := if x = "" then y else x

/-- `article_data.get('content') or article_data.get('description') or ""`
(app.py line 162): an absent key (`none`) and an empty string are both
falsy. -/
def resolveText (a : Article) : String :=
  strOr (a.content.getD "") (strOr (a.description.getD "") "")

/-- The record appended for one surviving article (app.py lines 164-173). -/
def mkAnalyzed (cl : Classifier) (oner : Option NerModel) (i : ℕ)
    (a : Article) (content : String) : AnalyzedArticle :=
  let analysis := perform_nlp_analysis cl oner content
  { id := i, title := a.title, content := content,
    published_at := a.publishedAt,
    sentiment := analysis.1, entities := analysis.2 }

/-- The body of the `for i, article_data in enumerate(news_data)` loop of
`process_news_data` (app.py lines 161-173), as indexed recursion: `i` is the
enumeration index, `continue` on empty resolved text. -/
def processGo (cl : Classifier) (oner : Option NerModel) :
    ℕ → List Article → List AnalyzedArticle
  | _, [] => []
  | i, a :: rest =>
    if resolveText a = "" then processGo cl oner (i + 1) rest
    else mkAnalyzed cl oner i a (resolveText a) :: processGo cl oner (i + 1) rest

/-- `process_news_data` (app.py lines 158-174). -/
def process_news_data (cl : Classifier) (oner : Option NerModel)
    (news_data : List Article) : List AnalyzedArticle :=
  processGo cl oner 0 news_data

/-- Instrumented variant of the `process_news_data` loop that additionally
records, in call order, every `content` argument on which
`perform_nlp_analysis` is invoked (app.py line 164). -/
def processGoTrace (cl : Classifier) (oner : Option NerModel) :
    ℕ → List Article → List AnalyzedArticle × List String
  | _, [] => ([], [])
  | i, a :: rest =>
    if resolveText a = "" then processGoTrace cl oner (i + 1) rest
    else
      (mkAnalyzed cl oner i a (resolveText a) ::
          (processGoTrace cl oner (i + 1) rest).1,
        resolveText a :: (processGoTrace cl oner (i + 1) rest).2)

/-- The JSON payload returned by the news service: a status field, an
optional message, an optional `articles` array (absent keys are `none`). -/
structure Payload where
  status : Option String
  message : Option String
  articles : Option (List Article)
  deriving Repr

/-- Outcome of the outbound HTTP fetch inside either endpoint's `try`
block: a `requests.exceptions.RequestException` (network/transport failure,
including `raise_for_status`), any other exception (e.g. from `json()`), or
a decoded JSON payload. -/
inductive FetchResult where
  | networkFailure (e : String)
  | otherFailure (e : String)
  | payload (p : Payload)

/-- The body of an HTTP response from the API endpoints: either a JSON
array of analyzed articles or a `{"error": ...}` object. -/
inductive Body where
  | articles (l : List AnalyzedArticle)
  | error (msg : String)
  deriving DecidableEq

/-- Response processing of `analyze_topic` (app.py lines 186-202): map the
fetch outcome to a `(body, status code)` pair. -/
def analyze_topic_handle (cl : Classifier) (oner : Option NerModel) :
    FetchResult → Body × ℕ
  | .networkFailure e =>
      (.error ("Failed to connect to the news service: " ++ e), 500)
  | .otherFailure e =>
      (.error ("An internal server error occurred: " ++ e), 500)
  | .payload p =>
      if p.status ≠ some "ok" then
        (.error ("News API Error: " ++ p.message.getD "Unknown API error"), 400)
      else
        (.articles (process_news_data cl oner (p.articles.getD [])), 200)

/-- Response processing of `latest_news` (app.py lines 212-228). -/
def latest_news_handle (cl : Classifier) (oner : Option NerModel) :
    FetchResult → Body × ℕ
  | .networkFailure e =>
      (.error ("Failed to connect to the news service: " ++ e), 500)
  | .otherFailure e =>
      (.error ("An internal server error occurred: " ++ e), 500)
  | .payload p =>
      if p.status ≠ some "ok" then
        (.error ("News API Error: " ++ p.message.getD "Unknown API error"), 400)
      else
        (.articles (process_news_data cl oner (p.articles.getD [])), 200)

/-- `request.args.get('keyword', 'default topic')` (app.py line 180). -/
def analyze_topic_keyword (kw : Option String) : String :=
  kw.getD "default topic"

/-- The query URL built by `analyze_topic` (app.py lines 182-184). -/
def analyze_topic_url (kw : Option String) (language : String) : String :=
  let api_key := "Enter Your API Here"
  let lang_code := if language = "Hindi" then "hi" else "en"
  "https://newsapi.org/v2/everything?apiKey=" ++ api_key ++ "&q=" ++
    analyze_topic_keyword kw ++ "&language=" ++ lang_code

/-! ## Test fixtures used in witnesses and counterexamples -/

/-- Fixture: an article with no usable text (empty content, no description). -/
def artNoText : Article :=
  { title := some "B", content := some "", description := none,
    publishedAt := none }

/-- Fixture: an article with a present, non-empty content. -/
def artWithText : Article :=
  { title := some "A", content := some "Great news", description := none,
    publishedAt := some "2024-01-01" }

/-- Fixture: a classifier whose every call raises. -/
def clFail : Classifier := fun _ => none

/-! ## Helper lemmas about the aggregation loop -/

theorem processGo_mem (cl : Classifier) (oner : Option NerModel)
    (l : List Article) :
    ∀ (i : ℕ) (r : AnalyzedArticle), r ∈ processGo cl oner i l →
      ∃ j a, l.get? j = some a ∧ r.id = i + j ∧ resolveText a ≠ "" ∧
        r.content = resolveText a := by
  induction l with
  | nil => intro i r h; simp [processGo] at h
  | cons a rest ih =>
    intro i r h
    rw [processGo] at h
    by_cases hc : resolveText a = ""
    · rw [if_pos hc] at h
      obtain ⟨j, b, hb, hid, hne, hct⟩ := ih (i + 1) r h
      exact ⟨j + 1, b, hb, by omega, hne, hct⟩
    · rw [if_neg hc] at h
      rcases List.mem_cons.mp h with h1 | h2
      · subst h1
        exact ⟨0, a, rfl, rfl, hc, rfl⟩
      · obtain ⟨j, b, hb, hid, hne, hct⟩ := ih (i + 1) r h2
        exact ⟨j + 1, b, hb, by omega, hne, hct⟩

theorem processGoTrace_fst (cl : Classifier) (oner : Option NerModel)
    (l : List Article) :
    ∀ i, (processGoTrace cl oner i l).1 = processGo cl oner i l := by
  induction l with
  | nil => intro i; rfl
  | cons a rest ih =>
    intro i
    rw [processGoTrace, processGo]
    by_cases hc : resolveText a = ""
    · rw [if_pos hc, if_pos hc, ih]
    · rw [if_neg hc, if_neg hc]
      simp [ih]

/-- Bool form of the loop's survival test (`if not content: continue`,
app.py line 163): the resolved text is non-empty. -/
def hasText (a : Article) : Bool := !(resolveText a == "")

theorem hasText_iff (a : Article) : hasText a = true ↔ resolveText a ≠ "" := by
  simp [hasText]

theorem processGoTrace_snd (cl : Classifier) (oner : Option NerModel)
    (l : List Article) :
    ∀ i, (processGoTrace cl oner i l).2 =
      (l.filter hasText).map resolveText := by
  induction l with
  | nil => intro i; rfl
  | cons a rest ih =>
    intro i
    rw [processGoTrace]
    by_cases hc : resolveText a = ""
    · have hf : hasText a = false := by simp [hasText, hc]
      rw [if_pos hc]
      simp [List.filter_cons, hf, ih (i + 1)]
    · have ht : hasText a = true := by simp [hasText, hc]
      rw [if_neg hc]
      simp [List.filter_cons, ht, ih (i + 1)]

theorem processGo_contents (cl : Classifier) (oner : Option NerModel)
    (l : List Article) :
    ∀ i, (processGo cl oner i l).map (fun r => r.content) =
      (l.filter hasText).map resolveText := by
  induction l with
  | nil => intro i; rfl
  | cons a rest ih =>
    intro i
    rw [processGo]
    by_cases hc : resolveText a = ""
    · have hf : hasText a = false := by simp [hasText, hc]
      rw [if_pos hc]
      simp [List.filter_cons, hf, ih (i + 1)]
    · have ht : hasText a = true := by simp [hasText, hc]
      rw [if_neg hc]
      simp [List.filter_cons, ht, ih (i + 1), mkAnalyzed]

/-! ## Claim C1 -/

/-- C1 counterexample: for the input `[artNoText, artWithText]` the single
emitted article's `id` is 1 (its position in the original input list), not 0
(its position in the filtered output sequence), refuting the claim that
`id` is the 0-based position within the filtered output. -/
theorem C1_counterexample :
    (process_news_data clFail none [artNoText, artWithText]).map
        (fun r => r.id) = [1] ∧
      ([1] : List ℕ) ≠ [0] := by
  exact ⟨rfl, by decide⟩

theorem processGo_eq_enumFrom (cl : Classifier) (oner : Option NerModel)
    (l : List Article) :
    ∀ i, processGo cl oner i l =
      ((List.enumFrom i l).filter (fun p => hasText p.2)).map
        (fun p => mkAnalyzed cl oner p.1 p.2 (resolveText p.2)) := by
  induction l with
  | nil => intro i; rfl
  | cons a rest ih =>
    intro i
    rw [processGo, List.enumFrom]
    by_cases hc : resolveText a = ""
    · have hf : hasText a = false := by simp [hasText, hc]
      rw [if_pos hc, ih (i + 1)]
      simp [List.filter_cons, hf]
    · have ht : hasText a = true := by simp [hasText, hc]
      rw [if_neg hc, ih (i + 1)]
      simp [List.filter_cons, ht]

/-- C1 (amended): the aggregator's output is exactly the enumeration of the
input, filtered to the articles with usable text, each mapped to the record
built from its OWN enumerate index: so every emitted AnalyzedArticle has
`id` equal to its 0-based position in the ORIGINAL input list, not its
position in the filtered output sequence; when an earlier article is
skipped, the ids of later output articles keep their input positions. -/
theorem C1_id_is_input_index (cl : Classifier) (oner : Option NerModel)
    (l : List Article) :
    process_news_data cl oner l =
      ((l.enum).filter (fun p => hasText p.2)).map
        (fun p => mkAnalyzed cl oner p.1 p.2 (resolveText p.2)) ∧
    (process_news_data cl oner l).map (fun r => r.id) =
      ((l.enum).filter (fun p => hasText p.2)).map Prod.fst := by
  have h : process_news_data cl oner l =
      ((l.enum).filter (fun p => hasText p.2)).map
        (fun p => mkAnalyzed cl oner p.1 p.2 (resolveText p.2)) :=
    processGo_eq_enumFrom cl oner l 0
  refine ⟨h, ?_⟩
  rw [h, List.map_map]
  simp [mkAnalyzed]

/-! ## Claim C2 -/

/-- C2: whenever the classifier returns a confidence score strictly below
0.95, `perform_nlp_analysis` overrides the label to NEUTRAL while passing
the score through unchanged; at 0.95 or above the classifier's result is
returned unchanged. -/
theorem C2_confidence_threshold (cl : Classifier) (oner : Option NerModel)
    (text : String) (r : SentimentResult)
    (h : cl (text.take 512) = some r) :
    (r.score < 95 / 100 →
      (perform_nlp_analysis cl oner text).1 =
        { label := "NEUTRAL", score := r.score }) ∧
    (95 / 100 ≤ r.score →
      (perform_nlp_analysis cl oner text).1 = r) := by
  obtain ⟨lb, sc⟩ := r
  constructor
  · intro hlt
    simp only [perform_nlp_analysis, computeSentiment, h]
    rw [if_pos hlt]
  · intro hge
    simp only [perform_nlp_analysis, computeSentiment, h]
    rw [if_neg (not_lt.mpr hge)]

/-- C2 witness: a classifier reporting POSITIVE at confidence 0.60 yields
NEUTRAL at 0.60. -/
theorem C2_confidence_threshold_witness :
    (perform_nlp_analysis (fun _ => some { label := "POSITIVE", score := 3 / 5 })
        none "some text").1 = { label := "NEUTRAL", score := 3 / 5 } :=
  (C2_confidence_threshold (fun _ => some { label := "POSITIVE", score := 3 / 5 })
    none "some text" { label := "POSITIVE", score := 3 / 5 } rfl).1 (by norm_num)

/-! ## Claim C5 -/

/-- C5: when the classifier call fails (raises), the analyzer returns
sentiment UNKNOWN with score 0.0 instead of propagating the failure, and the
entity sets are computed exactly as they would be under any other
classifier. -/
theorem C5_classifier_failure_absorbed (cl cl1 : Classifier)
    (oner : Option NerModel) (text : String)
    (h : cl (text.take 512) = none) :
    (perform_nlp_analysis cl oner text).1 = { label := "UNKNOWN", score := 0 } ∧
    (perform_nlp_analysis cl oner text).2 =
      (perform_nlp_analysis cl1 oner text).2 := by
  constructor
  · simp only [perform_nlp_analysis, computeSentiment, h]
  · rfl

/-- C5 witness: the always-raising classifier on a concrete text. -/
theorem C5_classifier_failure_absorbed_witness :
    (perform_nlp_analysis clFail none "great").1 =
      { label := "UNKNOWN", score := 0 } ∧
    (perform_nlp_analysis clFail none "great").2 =
      (perform_nlp_analysis
        (fun _ => some { label := "POSITIVE", score := 1 }) none "great").2 :=
  C5_classifier_failure_absorbed clFail
    (fun _ => some { label := "POSITIVE", score := 1 }) none "great" rfl

/-! ## Claim C7 -/

/-- C7: the sentiment classifier only ever sees the first 512 characters of
the text (two classifiers agreeing on `text.take 512` give the same
sentiment), while the named-entity recognizer is applied to the full,
non-truncated text. -/
theorem C7_sentiment_truncated_ner_full (cl cl1 : Classifier) (f : NerModel)
    (text : String) (h : cl (text.take 512) = cl1 (text.take 512)) :
    (perform_nlp_analysis cl (some f) text).1 =
      (perform_nlp_analysis cl1 (some f) text).1 ∧
    (perform_nlp_analysis cl (some f) text).2 = buildEntities (f text) := by
  constructor
  · simp only [perform_nlp_analysis, computeSentiment, h]
  · rfl

/-- C7 witness: concrete classifiers that agree on the 512-character
truncation, and a recognizer applied to the full text. -/
theorem C7_sentiment_truncated_ner_full_witness :
    (perform_nlp_analysis clFail (some fun s => [(s, "PERSON")]) "abc").1 =
      (perform_nlp_analysis clFail (some fun s => [(s, "PERSON")]) "abc").1 ∧
    (perform_nlp_analysis clFail (some fun s => [(s, "PERSON")]) "abc").2 =
      buildEntities [("abc", "PERSON")] :=
  C7_sentiment_truncated_ner_full clFail clFail (fun s => [(s, "PERSON")])
    "abc" rfl

/-! ## Claim C9 -/

/-- C9: when the `keyword` query parameter is absent, `analyze_topic` uses
the literal keyword "default topic", and the query URL it builds is the one
it would build for an explicit `keyword=default topic`. -/
theorem C9_default_keyword (language : String) :
    analyze_topic_keyword none = "default topic" ∧
    analyze_topic_url none language =
      analyze_topic_url (some "default topic") language :=
  ⟨rfl, rfl⟩

/-! ## Claim C10 -/

/-- C10: on every fetch outcome the `/api/analyze` and `/api/latest`
handlers produce identical responses (same status check, same 400/500
mapping, same per-article aggregation), and a payload with status "ok" but
no `articles` field yields the empty JSON array with code 200. -/
theorem C10_endpoints_equivalent (cl : Classifier) (oner : Option NerModel)
    (fr : FetchResult) :
    analyze_topic_handle cl oner fr = latest_news_handle cl oner fr ∧
    ∀ msg, analyze_topic_handle cl oner
        (.payload { status := some "ok", message := msg, articles := none }) =
      (.articles [], 200) := by
  constructor
  · cases fr <;> rfl
  · intro msg; rfl

/-! ## Claim C3 -/

/-- C3: articles whose content and description are both empty or absent are
excluded from the output and never passed to the analyzer (the instrumented
trace of analyzer calls covers exactly the surviving articles' resolved
texts), and the aggregator emits exactly one AnalyzedArticle per surviving
article, preserving input order. -/
theorem C3_no_text_excluded (cl : Classifier) (oner : Option NerModel)
    (l : List Article) :
    (processGoTrace cl oner 0 l).1 = process_news_data cl oner l ∧
    (processGoTrace cl oner 0 l).2 = (l.filter hasText).map resolveText ∧
    (process_news_data cl oner l).map (fun r => r.content) =
      (l.filter hasText).map resolveText ∧
    (process_news_data cl oner l).length = (l.filter hasText).length ∧
    (∀ a : Article, hasText a = true ↔ resolveText a ≠ "") ∧
    (∀ a : Article, a.content.getD "" = "" → a.description.getD "" = "" →
      resolveText a = "") := by
  refine ⟨processGoTrace_fst cl oner l 0, processGoTrace_snd cl oner l 0,
    processGo_contents cl oner l 0, ?_, hasText_iff, ?_⟩
  · have h := congrArg List.length (processGo_contents cl oner l 0)
    simpa [process_news_data] using h
  · intro a h1 h2
    simp [resolveText, strOr, h1, h2]

/-- C3 witness: the fixture article with empty content and no description
resolves to the empty text, hence is skipped. -/
theorem C3_no_text_excluded_witness :
    resolveText artNoText = "" :=
  (C3_no_text_excluded clFail none [artNoText]).2.2.2.2.2 artNoText rfl rfl

/-! ## Claim C4 -/

/-- C4: a payload whose status field is present and differs from "ok" makes
the handler answer 400 with body error "News API Error: <upstream message>"
(message carried verbatim) and no analyzed articles, while a network failure
and any other unexpected failure both answer 500 with their own distinct
messages. -/
theorem C4_non_ok_status (cl : Classifier) (oner : Option NerModel)
    (p : Payload) (s m : String)
    (hs : p.status = some s) (hne : s ≠ "ok") (hm : p.message = some m) :
    analyze_topic_handle cl oner (.payload p) =
      (.error ("News API Error: " ++ m), 400) ∧
    (∀ e, analyze_topic_handle cl oner (.networkFailure e) =
      (.error ("Failed to connect to the news service: " ++ e), 500)) ∧
    (∀ e, analyze_topic_handle cl oner (.otherFailure e) =
      (.error ("An internal server error occurred: " ++ e), 500)) := by
  refine ⟨?_, fun e => rfl, fun e => rfl⟩
  have hstat : p.status ≠ some "ok" := by
    rw [hs]; exact fun hc => hne (Option.some.inj hc)
  simp [analyze_topic_handle, hstat, hm]

/-- C4 witness: the spec's quota-exceeded scenario. -/
theorem C4_non_ok_status_witness :
    analyze_topic_handle clFail none
        (.payload { status := some "error", message := some "quota exceeded",
                    articles := none }) =
      (.error "News API Error: quota exceeded", 400) :=
  (C4_non_ok_status clFail none _ "error" "quota exceeded" rfl (by decide)
    rfl).1

/-! ## Helper lemmas about the entity dictionary -/

theorem dictAppend_keys (d : EntityDict) (k v : String) :
    (dictAppend d k v).map Prod.fst = d.map Prod.fst := by
  induction d with
  | nil => rfl
  | cons p rest ih =>
    by_cases h : p.1 = k <;>
      simp only [dictAppend, List.map_cons] at ih ⊢ <;>
      simp [h, ih]

theorem foldl_entStep_keys (es : List (String × String)) :
    ∀ d : EntityDict, (es.foldl entStep d).map Prod.fst = d.map Prod.fst := by
  induction es with
  | nil => intro d; rfl
  | cons e rest ih =>
    intro d
    rw [List.foldl_cons, ih]
    unfold entStep
    by_cases h : dictHasKey d e.2
    · rw [if_pos h, dictAppend_keys]
    · rw [if_neg h]

theorem buildEntities_keys (es : List (String × String)) :
    (buildEntities es).map Prod.fst = ["PERSON", "ORG", "GPE"] := by
  unfold buildEntities
  rw [List.map_map]
  exact foldl_entStep_keys es entitiesInit

theorem buildEntities_nodup (es : List (String × String)) :
    ∀ p ∈ buildEntities es, p.2.Nodup := by
  intro p hp
  unfold buildEntities at hp
  obtain ⟨q, hq, rfl⟩ := List.mem_map.mp hp
  exact List.nodup_dedup q.2

theorem foldl_entStep_mem (Q : String → String → Prop)
    (es : List (String × String)) :
    ∀ d : EntityDict, (∀ e ∈ es, Q e.1 e.2) →
      (∀ p ∈ d, ∀ s ∈ p.2, Q s p.1) →
      ∀ p ∈ es.foldl entStep d, ∀ s ∈ p.2, Q s p.1 := by
  induction es with
  | nil => intro d _ hd; exact hd
  | cons e rest ih =>
    intro d hes hd
    rw [List.foldl_cons]
    apply ih
    · intro e' he'
      exact hes e' (List.mem_cons_of_mem _ he')
    · intro p hp s hs
      unfold entStep at hp
      by_cases h : dictHasKey d e.2
      · rw [if_pos h] at hp
        unfold dictAppend at hp
        obtain ⟨q, hq, rfl⟩ := List.mem_map.mp hp
        by_cases hk : q.1 = e.2
        · rw [if_pos hk] at hs ⊢
          rcases List.mem_append.mp hs with h1 | h2
          · exact hd q hq s h1
          · have hse : s = e.1 := by simpa using h2
            subst hse
            have := hes e (List.mem_cons_self e rest)
            rwa [← hk] at this
        · rw [if_neg hk] at hs ⊢
          exact hd q hq s hs
      · rw [if_neg h] at hp
        exact hd p hp s hs

theorem buildEntities_mem (es : List (String × String)) (p : String × List String)
    (hp : p ∈ buildEntities es) (s : String) (hs : s ∈ p.2) :
    (s, p.1) ∈ es := by
  unfold buildEntities at hp
  obtain ⟨q, hq, rfl⟩ := List.mem_map.mp hp
  have hs' : s ∈ q.2 := List.mem_dedup.mp hs
  refine foldl_entStep_mem (fun s c => (s, c) ∈ es) es entitiesInit ?_ ?_ q hq s hs'
  · intro e he
    simpa using he
  · intro p hp s hs
    simp only [entitiesInit, List.mem_cons] at hp
    rcases hp with rfl | rfl | rfl | hp
    · exact absurd hs (List.not_mem_nil s)
    · exact absurd hs (List.not_mem_nil s)
    · exact absurd hs (List.not_mem_nil s)
    · exact absurd hp (List.not_mem_nil p)

/-! ## Claim C6 -/

/-- C6: the entity mapping has exactly the keys PERSON, ORG, GPE in every
run; each bucket holds distinct strings, each provenanced from the
recognizer under that exact type (other types are discarded); and when the
recognizer is unavailable all three buckets are empty while the analysis
still returns. -/
theorem C6_entity_categories (cl : Classifier) (oner : Option NerModel)
    (text : String) :
    ((perform_nlp_analysis cl oner text).2.map Prod.fst =
      ["PERSON", "ORG", "GPE"]) ∧
    (∀ p ∈ (perform_nlp_analysis cl oner text).2, p.2.Nodup) ∧
    (∀ f : NerModel, oner = some f →
      ∀ p ∈ (perform_nlp_analysis cl oner text).2, ∀ s ∈ p.2,
        (s, p.1) ∈ f text) ∧
    (oner = none → (perform_nlp_analysis cl oner text).2 =
      [("PERSON", []), ("ORG", []), ("GPE", [])]) := by
  cases oner with
  | none =>
    refine ⟨rfl, ?_, ?_, fun _ => rfl⟩
    · intro p hp
      simp only [perform_nlp_analysis, entitiesInit, List.mem_cons] at hp
      rcases hp with rfl | rfl | rfl | hp
      · exact List.nodup_nil
      · exact List.nodup_nil
      · exact List.nodup_nil
      · exact absurd hp (List.not_mem_nil p)
    · intro f hf
      simp at hf
  | some f =>
    refine ⟨buildEntities_keys (f text), ?_, ?_, ?_⟩
    · intro p hp
      exact buildEntities_nodup (f text) p hp
    · intro g hg p hp s hs
      obtain rfl := Option.some.inj hg
      exact buildEntities_mem (f text) p hp s hs
    · intro h
      exact absurd h (Option.some_ne_none f)

/-- C6 witness: a recognizer that failed to load yields the three empty
buckets on a concrete text. -/
theorem C6_entity_categories_witness :
    (perform_nlp_analysis clFail none "x").2 =
      [("PERSON", []), ("ORG", []), ("GPE", [])] :=
  (C6_entity_categories clFail none "x").2.2.2 rfl

/-! ## Claim C8 -/

/-- C8: when `content` is present and non-empty the resolved text is
`content` verbatim; `description` is only ever used when `content` is empty
or absent. -/
theorem C8_content_preferred (a : Article) :
    (∀ c, a.content = some c → c ≠ "" → resolveText a = c) ∧
    ((a.content = none ∨ a.content = some "") →
      ∀ d, a.description = some d → d ≠ "" → resolveText a = d) := by
  constructor
  · intro c hc hcne
    simp [resolveText, strOr, hc, hcne]
  · intro hcon d hd hdne
    rcases hcon with h | h <;> simp [resolveText, strOr, h, hd, hdne]

/-- C8 witness: the fixture with present non-empty content resolves to it
verbatim. -/
theorem C8_content_preferred_witness :
    resolveText artWithText = "Great news" :=
  (C8_content_preferred artWithText).1 "Great news" rfl (by decide)
